import Mathlib

/-!
Shallow embedding of `src/paged_client.rs` (fireblocks-sdk-rs): the two manual
poll-based stream state machines `VaultStream` (token cursor) and
`TransactionStream` (derived timestamp cursor), together with the
`PagedClient` constructors.

Modelling conventions:
* `Epoch` (chrono `DateTime<Utc>` in the source) is modelled as `Int`,
  milliseconds since the Unix epoch; `chrono::Duration::milliseconds(1)`
  becomes `+ 1`.
* The `FuturesUnordered` set of boxed fetch futures is modelled by its size
  (`fut : Nat`, the number of in-flight fetch futures).  Polling the set when
  it is empty returns `Ready(None)` (deterministically); when it is non-empty
  the outcome is an environment choice, passed to `poll_next` as a
  `FutOutcome` oracle: still `pending`, or `done r` with the fetch's result
  (which removes the completed future from the set).
* The `Arc<Client>` transport handle performs no observable work inside
  `poll_next` other than being captured by the fetch future, so it is dropped
  from the state.
* The parameter builders (`PagingVaultRequestBuilder`,
  `TransactionListBuilder`) live in the crate's `types` module, outside the
  embedded file; `poll_next` is therefore parameterised by a build function
  receiving exactly the data the source passes to the builder, and concrete
  builder models (marked `Modelled from the spec:`) are provided for the
  claims that inspect built parameters.
-/

deriving instance DecidableEq for Except

namespace Fireblocks

/-- Timestamp type: the source's `Epoch` (`chrono::DateTime<Utc>`), modelled
as milliseconds since the Unix epoch. -/
abbrev Epoch := Int

/-- Modelled from the spec: the crate's `ParamError` (validation failure of
request parameters), external to the embedded file; only its identity
matters. -/
structure ParamError where
  msg : String
deriving DecidableEq, Repr

/-- Modelled from the spec: the crate's `FireblocksError`, external to the
embedded file.  `poll_next` only constructs it via `FireblocksError::from` on
a `ParamError`, or passes fetch errors through verbatim; transport errors are
identified by a message. -/
inductive FireblocksError where
  | param (e : ParamError)
  | transport (msg : String)
deriving DecidableEq, Repr

/-- `std::task::Poll`. -/
inductive Poll (α : Type) where
  | ready (v : α)
  | pending
deriving DecidableEq, Repr

/-- Environment oracle for polling a non-empty `FuturesUnordered`: the single
in-flight future is either still pending or completes with result `r`. -/
inductive FutOutcome (α : Type) where
  | pending
  | done (r : α)
deriving DecidableEq, Repr

/-- Modelled from the spec: the paging metadata of `VaultAccounts`
(`types` module, external to the embedded file): the server-supplied next
token, present while more pages remain. -/
structure Paging where
  after : Option String
deriving DecidableEq, Repr

/-- Modelled from the spec: the `VaultAccounts` page type (`types` module,
external).  Only the field `poll_next` reads — `paging` — is modelled; the
item list plays no role in the token-cursor state machine. -/
structure VaultAccounts where
  paging : Paging
deriving DecidableEq, Repr

/-- Modelled from the spec: a transaction record (`types` module, external).
Only the field `poll_next` reads — `created_at` — is modelled. -/
structure Transaction where
  created_at : Epoch
deriving DecidableEq, Repr

/-- Modelled from the spec: the query parameters produced by
`PagingVaultRequestBuilder` (external): limit and the "after" token string. -/
structure VaultQueryParams where
  limit : Nat
  after : String
deriving DecidableEq, Repr

/-- Modelled from the spec: the query parameters produced by
`TransactionListBuilder` (external): limit, sort direction, order-by field,
the "after" cursor, and the party-role filter. -/
structure TransactionQueryParams where
  limit : Nat
  after : Epoch
  sort_ascending : Bool
  order_by_created_at : Bool
  source_id : Option Int
  destination_id : Option Int
deriving DecidableEq, Repr

/-- The crate's `Result<T>`: `Ok` carries the payload together with a request
id (the source destructures pages as `Ok((ref va, ref _id))`). -/
abbrev VaultResult := Except FireblocksError (VaultAccounts × String)

/-- Result of one transaction-list fetch: a page of transactions plus the
request id. -/
abbrev TxResult := Except FireblocksError (List Transaction × String)

/-- Abstract `PagingVaultRequestBuilder` pipeline: receives the limit and the
after-token string exactly as `VaultStream::build_params` passes them
(`limit(self.batch).after(self.after.as_ref().unwrap_or(&String::new()))`). -/
abbrev VaultBuild := Nat → String → Except ParamError VaultQueryParams

/-- `VaultStream` state (the `client: Arc<Client>` handle is external and
carries no state read by `poll_next`; `fut` is the size of the
`FuturesUnordered` set). -/
structure VaultStream where
  batch : Nat
  after : Option String
  init : Bool
  fut : Nat
deriving DecidableEq, Repr

/-- `VaultStream::new`. -/
def VaultStream.new (batch : Nat) : VaultStream :=
  { batch := batch, after := none, init := false, fut := 0 }

/-- Modelled from the spec: `VaultStream::build_params` with the external
`PagingVaultRequestBuilder` taken to validate nothing (pure serialization of
limit and after-token). -/
def VaultStream.build_params (s : VaultStream) : Except ParamError VaultQueryParams :=
  .ok { limit := s.batch, after := s.after.getD "" }

/-- `<VaultStream as Stream>::poll_next`, one poll step.  `build` abstracts
the external parameter builder; `o` is the environment's outcome for polling
the non-empty future set.  Returns the updated stream state and the
`Poll<Option<Result<VaultAccounts>>>` value the source returns. -/
def VaultStream.poll_next (build : VaultBuild) (s : VaultStream)
    (o : FutOutcome VaultResult) : VaultStream × Poll (Option VaultResult) :=
  if s.init = false then
    let s1 := { s with init := true }
    match build s1.batch (s1.after.getD "") with
    | .error e => (s1, .ready (some (.error (.param e))))
    | .ok _ => ({ s1 with fut := s1.fut + 1 }, .pending)
  else if s.fut = 0 then
    -- `self.fut.poll_next_unpin(cx)` on an empty set returns `Ready(None)`:
    -- fall through to the after-token check.
    if s.after.isNone then
      (s, .ready none)
    else
      match build s.batch (s.after.getD "") with
      | .error e => (s, .ready (some (.error (.param e))))
      | .ok _ => ({ s with fut := s.fut + 1 }, .pending)
  else
    match o with
    | .pending => (s, .pending)
    | .done r =>
      match r with
      | .ok va =>
        ({ s with fut := s.fut - 1, after := va.1.paging.after },
          .ready (some (.ok va)))
      | .error e => ({ s with fut := s.fut - 1 }, .ready (some (.error e)))

/-- `TransactionStream` state (the `client` handle is external; `fut` is the
size of the `FuturesUnordered` set). -/
structure TransactionStream where
  batch : Nat
  init : Bool
  vault_id : Int
  after : Epoch
  is_source : Bool
  fut : Nat
deriving DecidableEq, Repr

/-- `TransactionStream::from_source`. -/
def TransactionStream.from_source (batch : Nat) (vault_id : Int) (after : Epoch) :
    TransactionStream :=
  { batch := batch, init := false, vault_id := vault_id, after := after,
    is_source := true, fut := 0 }

/-- `TransactionStream::from_dest`. -/
def TransactionStream.from_dest (batch : Nat) (vault_id : Int) (after : Epoch) :
    TransactionStream :=
  { batch := batch, init := false, vault_id := vault_id, after := after,
    is_source := false, fut := 0 }

/-- Abstract `TransactionListBuilder` pipeline as invoked by
`TransactionStream::build_params`: it reads `batch`, `after`, `vault_id` and
`is_source` from the stream, so the whole state is passed. -/
abbrev TxBuild := TransactionStream → Except ParamError TransactionQueryParams

/-- Modelled from the spec: `TransactionStream::build_params` with the
external `TransactionListBuilder` taken to validate nothing.  Mirrors
`limit(batch).sort_asc().order_created_at().after(&after)` followed by
`source_id(vault_id)` or `destination_id(vault_id)`. -/
def TransactionStream.build_params (s : TransactionStream) :
    Except ParamError TransactionQueryParams :=
  .ok { limit := s.batch, after := s.after, sort_ascending := true,
        order_by_created_at := true,
        source_id := if s.is_source then some s.vault_id else none,
        destination_id := if s.is_source then none else some s.vault_id }

/-- `<TransactionStream as Stream>::poll_next`, one poll step. -/
def TransactionStream.poll_next (build : TxBuild) (s : TransactionStream)
    (o : FutOutcome TxResult) : TransactionStream × Poll (Option TxResult) :=
  if s.init = false then
    let s1 := { s with init := true }
    match build s1 with
    | .error e => (s1, .ready (some (.error (.param e))))
    | .ok _ => ({ s1 with fut := s1.fut + 1 }, .pending)
  else if s.fut = 0 then
    -- empty future set: `poll_next_unpin` returns `Ready(None)`; the source
    -- falls straight through to building params and pushing a new fetch
    -- (there is no exhaustion check here, unlike `VaultStream`).
    match build s with
    | .error e => (s, .ready (some (.error (.param e))))
    | .ok _ => ({ s with fut := s.fut + 1 }, .pending)
  else
    match o with
    | .pending => (s, .pending)
    | .done r =>
      match r with
      | .ok va =>
        if va.1.isEmpty then
          ({ s with fut := s.fut - 1 }, .ready none)
        else
          match va.1.getLast? with
          | some last =>
            ({ s with fut := s.fut - 1, after := last.created_at + 1 },
              .ready (some (.ok va)))
          | none => ({ s with fut := s.fut - 1 }, .ready (some (.ok va)))
      | .error e => ({ s with fut := s.fut - 1 }, .ready (some (.error e)))

/-- Modelled from the spec: chrono's civil-calendar conversion (proleptic
Gregorian), days since 1970-01-01. -/
def days_from_civil (y m d : Int) : Int :=
  let y2 := if m ≤ 2 then y - 1 else y
  let era := (if 0 ≤ y2 then y2 else y2 - 399) / 400
  let yoe := y2 - era * 400
  let mp := (m + 9) % 12
  let doy := (153 * mp + 2) / 5 + d - 1
  let doe := yoe * 365 + yoe / 4 - yoe / 100 + doy
  era * 146097 + doe - 719468

/-- Modelled from the spec: chrono's `Utc.with_ymd_and_hms(...)` as
milliseconds since the Unix epoch. -/
def with_ymd_and_hms_millis (y m d hh mi ss : Int) : Epoch :=
  (days_from_civil y m d * 86400 + hh * 3600 + mi * 60 + ss) * 1000

/-- `PagedClient::vaults` (the `Arc<Client>` handle is external and dropped
from the model). -/
def PagedClient.vaults (batch_size : Nat) : VaultStream :=
  VaultStream.new batch_size

/-- `PagedClient::transactions_from_source`. -/
def PagedClient.transactions_from_source (vault_id : Int) (batch_size : Nat)
    (after : Option Epoch) : TransactionStream :=
  let default_after := with_ymd_and_hms_millis 2022 4 6 0 1 1
  TransactionStream.from_source batch_size vault_id (after.getD default_after)

/-- `PagedClient::transactions_from_destination`. -/
def PagedClient.transactions_from_destination (vault_id : Int) (batch_size : Nat)
    (after : Option Epoch) : TransactionStream :=
  let default_after := with_ymd_and_hms_millis 2022 4 6 0 1 1
  TransactionStream.from_dest batch_size vault_id (after.getD default_after)

/-- Drive a `VaultStream` through a list of poll steps, one oracle outcome
per poll; returns the (state, output) pair after each poll. -/
def VaultStream.run (build : VaultBuild) :
    VaultStream → List (FutOutcome VaultResult) →
    List (VaultStream × Poll (Option VaultResult))
  | _, [] => []
  | s, o :: os =>
    let p := VaultStream.poll_next build s o
    p :: VaultStream.run build p.1 os

/-- The states a `VaultStream` passes through: the start state followed by
the state after each poll. -/
def VaultStream.states (build : VaultBuild) (s : VaultStream)
    (os : List (FutOutcome VaultResult)) : List VaultStream :=
  s :: (VaultStream.run build s os).map Prod.fst

/-- Drive a `TransactionStream` through a list of poll steps. -/
def TransactionStream.run (build : TxBuild) :
    TransactionStream → List (FutOutcome TxResult) →
    List (TransactionStream × Poll (Option TxResult))
  | _, [] => []
  | s, o :: os =>
    let p := TransactionStream.poll_next build s o
    p :: TransactionStream.run build p.1 os

/-- The states a `TransactionStream` passes through. -/
def TransactionStream.states (build : TxBuild) (s : TransactionStream)
    (os : List (FutOutcome TxResult)) : List TransactionStream :=
  s :: (TransactionStream.run build s os).map Prod.fst

/-- A `VaultBuild` that always succeeds: the modelled
`PagingVaultRequestBuilder` (no validation). -/
def okVaultBuild : VaultBuild := fun l a => .ok { limit := l, after := a }

/-- A `TxBuild` that always fails with a validation error, exercising the
parameter-build failure paths. -/
def failTxBuild : TxBuild := fun _ => .error { msg := "bad" }

/-- Does an oracle outcome respect the current cursor, i.e. every item of a
delivered page was created at or after the cursor the request carried? -/
def oracleRespects (s : TransactionStream) (o : FutOutcome TxResult) : Bool :=
  match o with
  | .done (.ok (va, _)) => va.all (fun tx => decide (s.after ≤ tx.created_at))
  | _ => true

/-- Every oracle outcome along a run respects the cursor current when it is
delivered. -/
def TxRunRespects (build : TxBuild) :
    TransactionStream → List (FutOutcome TxResult) → Bool
  | _, [] => true
  | s, o :: os =>
    oracleRespects s o
      && TxRunRespects build (TransactionStream.poll_next build s o).1 os

/-- Single-step invariant of a `VaultStream`: at most one in-flight fetch,
and none before the first poll. -/
def VaultStream.Inv (s : VaultStream) : Prop :=
  s.fut ≤ 1 ∧ (s.init = false → s.fut = 0)

/-- Single-step invariant of a `TransactionStream`: at most one in-flight
fetch, and none before the first poll. -/
def TransactionStream.Inv (s : TransactionStream) : Prop :=
  s.fut ≤ 1 ∧ (s.init = false → s.fut = 0)

example :
    VaultStream.poll_next okVaultBuild (VaultStream.new 2) .pending
      = ({ batch := 2, after := none, init := true, fut := 1 }, .pending) := by
  decide

example :
    VaultStream.poll_next okVaultBuild
      { batch := 2, after := none, init := true, fut := 1 }
      (.done (.ok (⟨⟨some "A"⟩⟩, "id")))
      = ({ batch := 2, after := some "A", init := true, fut := 0 },
          .ready (some (.ok (⟨⟨some "A"⟩⟩, "id")))) := by
  decide

example : with_ymd_and_hms_millis 2022 4 6 0 1 1 = 1649203261000 := by decide

example : days_from_civil 1970 1 1 = 0 := by decide

example :
    TransactionStream.poll_next TransactionStream.build_params
      { batch := 1, init := true, vault_id := 7, after := 50, is_source := true, fut := 1 }
      (.done (.ok ([⟨100⟩], "id")))
      = ({ batch := 1, init := true, vault_id := 7, after := 101, is_source := true, fut := 0 },
          .ready (some (.ok ([⟨100⟩], "id")))) := by
  decide

lemma VaultStream.vault_states_cons (build : VaultBuild) (s : VaultStream)
    (o : FutOutcome VaultResult) (os : List (FutOutcome VaultResult)) :
    VaultStream.states build s (o :: os)
      = s :: VaultStream.states build (VaultStream.poll_next build s o).1 os := by
  simp [VaultStream.states, VaultStream.run]

lemma TransactionStream.tx_states_cons (build : TxBuild) (s : TransactionStream)
    (o : FutOutcome TxResult) (os : List (FutOutcome TxResult)) :
    TransactionStream.states build s (o :: os)
      = s :: TransactionStream.states build (TransactionStream.poll_next build s o).1 os := by
  simp [TransactionStream.states, TransactionStream.run]

lemma VaultStream.vault_inv_step (build : VaultBuild) (s : VaultStream)
    (o : FutOutcome VaultResult) (h : VaultStream.Inv s) :
    VaultStream.Inv (VaultStream.poll_next build s o).1 := by
  obtain ⟨h1, h2⟩ := h
  unfold VaultStream.poll_next
  split
  · rename_i hi
    have hf : s.fut = 0 := h2 hi
    cases hb : build s.batch (s.after.getD "") <;>
      simp_all [VaultStream.Inv]
  · rename_i hi
    have hi2 : s.init = true := by revert hi; cases s.init <;> simp
    split
    · rename_i hf
      split
      · exact ⟨h1, fun hc => by simp [hi2] at hc⟩
      · cases hb : build s.batch (s.after.getD "") <;>
          simp_all [VaultStream.Inv]
    · cases o with
      | pending => exact ⟨h1, fun hc => by simp [hi2] at hc⟩
      | done r =>
        cases r with
        | ok va => exact ⟨by simp; omega, fun hc => by simp [hi2] at hc⟩
        | error e => exact ⟨by simp; omega, fun hc => by simp [hi2] at hc⟩

lemma TransactionStream.tx_inv_step (build : TxBuild) (s : TransactionStream)
    (o : FutOutcome TxResult) (h : TransactionStream.Inv s) :
    TransactionStream.Inv (TransactionStream.poll_next build s o).1 := by
  obtain ⟨h1, h2⟩ := h
  unfold TransactionStream.poll_next
  split
  · rename_i hi
    have hf : s.fut = 0 := h2 hi
    cases hb : build { s with init := true } <;>
      simp_all [TransactionStream.Inv]
  · rename_i hi
    have hi2 : s.init = true := by revert hi; cases s.init <;> simp
    split
    · rename_i hf
      cases hb : build s <;> simp_all [TransactionStream.Inv]
    · cases o with
      | pending => exact ⟨h1, fun hc => by simp [hi2] at hc⟩
      | done r =>
        cases r with
        | ok va =>
          by_cases he : va.1.isEmpty
          · simp [he]
            exact ⟨by simp; omega, fun hc => by simp [hi2] at hc⟩
          · cases hl : va.1.getLast? <;>
              simp [he, hl] <;>
              exact ⟨by simp; omega, fun hc => by simp [hi2] at hc⟩
        | error e => exact ⟨by simp; omega, fun hc => by simp [hi2] at hc⟩

lemma VaultStream.vault_inv_states (build : VaultBuild) (s : VaultStream)
    (os : List (FutOutcome VaultResult)) (h : VaultStream.Inv s) :
    ∀ t ∈ VaultStream.states build s os, VaultStream.Inv t := by
  induction os generalizing s with
  | nil =>
    intro t ht
    simp [VaultStream.states, VaultStream.run] at ht
    simpa [ht] using h
  | cons o os ih =>
    intro t ht
    rw [VaultStream.vault_states_cons] at ht
    rcases List.mem_cons.mp ht with rfl | ht2
    · exact h
    · exact ih _ (VaultStream.vault_inv_step build s o h) t ht2

lemma TransactionStream.tx_inv_states (build : TxBuild) (s : TransactionStream)
    (os : List (FutOutcome TxResult)) (h : TransactionStream.Inv s) :
    ∀ t ∈ TransactionStream.states build s os, TransactionStream.Inv t := by
  induction os generalizing s with
  | nil =>
    intro t ht
    simp [TransactionStream.states, TransactionStream.run] at ht
    simpa [ht] using h
  | cons o os ih =>
    intro t ht
    rw [TransactionStream.tx_states_cons] at ht
    rcases List.mem_cons.mp ht with rfl | ht2
    · exact h
    · exact ih _ (TransactionStream.tx_inv_step build s o h) t ht2

lemma VaultStream.vault_chain_fut (build : VaultBuild) (s : VaultStream)
    (os : List (FutOutcome VaultResult)) (h : VaultStream.Inv s) :
    List.Chain' (fun a b => a.fut < b.fut → a.fut = 0)
      (VaultStream.states build s os) := by
  induction os generalizing s with
  | nil => simp [VaultStream.states, VaultStream.run]
  | cons o os ih =>
    rw [VaultStream.vault_states_cons, List.chain'_cons']
    have h2 := VaultStream.vault_inv_step build s o h
    refine ⟨?_, ih _ h2⟩
    intro b hb
    have hb2 : b = (VaultStream.poll_next build s o).1 := by
      simp [VaultStream.states] at hb
      exact hb.symm
    intro hlt
    rw [hb2] at hlt
    have := h2.1
    omega

lemma TransactionStream.tx_chain_fut (build : TxBuild) (s : TransactionStream)
    (os : List (FutOutcome TxResult)) (h : TransactionStream.Inv s) :
    List.Chain' (fun a b => a.fut < b.fut → a.fut = 0)
      (TransactionStream.states build s os) := by
  induction os generalizing s with
  | nil => simp [TransactionStream.states, TransactionStream.run]
  | cons o os ih =>
    rw [TransactionStream.tx_states_cons, List.chain'_cons']
    have h2 := TransactionStream.tx_inv_step build s o h
    refine ⟨?_, ih _ h2⟩
    intro b hb
    have hb2 : b = (TransactionStream.poll_next build s o).1 := by
      simp [TransactionStream.states] at hb
      exact hb.symm
    intro hlt
    rw [hb2] at hlt
    have := h2.1
    omega

lemma VaultStream.run_exhausted (build : VaultBuild) (s : VaultStream)
    (os : List (FutOutcome VaultResult)) (h1 : s.init = true) (h2 : s.fut = 0)
    (h3 : s.after = none) :
    VaultStream.run build s os = os.map (fun _ => (s, Poll.ready none)) := by
  induction os with
  | nil => simp [VaultStream.run]
  | cons o os ih =>
    have hstep : VaultStream.poll_next build s o = (s, .ready none) := by
      unfold VaultStream.poll_next
      simp [h1, h2, h3]
    simp [VaultStream.run, hstep, ih]

lemma getLast?_mem_self {α : Type} :
    ∀ {l : List α} {a : α}, l.getLast? = some a → a ∈ l := by
  intro l
  induction l with
  | nil => intro a h; simp at h
  | cons x t ih =>
    intro a h
    cases t with
    | nil => simp at h; simp [h]
    | cons y t2 =>
      rw [List.getLast?_cons_cons] at h
      exact List.mem_cons_of_mem x (ih h)

lemma chain_created_le_getLast :
    ∀ {va : List Transaction} {last : Transaction},
      List.Chain' (fun a b => a.created_at ≤ b.created_at) va →
      va.getLast? = some last → ∀ tx ∈ va, tx.created_at ≤ last.created_at := by
  intro va
  induction va with
  | nil => intro last _ h; simp at h
  | cons x t ih =>
    intro last hc hl tx htx
    cases t with
    | nil =>
      simp at hl
      rcases List.mem_singleton.mp htx with rfl
      simp [hl]
    | cons y t2 =>
      rw [List.getLast?_cons_cons] at hl
      rw [List.chain'_cons] at hc
      have hy : y.created_at ≤ last.created_at :=
        ih hc.2 hl y (List.mem_cons_self y t2)
      rcases List.mem_cons.mp htx with rfl | htx2
      · exact le_trans hc.1 hy
      · exact ih hc.2 hl tx htx2

lemma TransactionStream.after_mono_step (build : TxBuild) (s : TransactionStream)
    (o : FutOutcome TxResult) (h : oracleRespects s o = true) :
    s.after ≤ (TransactionStream.poll_next build s o).1.after := by
  unfold TransactionStream.poll_next
  split
  · cases hb : build { s with init := true } <;> simp [hb]
  · split
    · cases hb : build s <;> simp [hb]
    · cases o with
      | pending => simp
      | done r =>
        cases r with
        | error e => simp
        | ok va =>
          obtain ⟨items, rid⟩ := va
          by_cases he : items.isEmpty
          · simp [he]
          · cases hl : items.getLast? with
            | none => simp [he, hl]
            | some last =>
              have hmem : last ∈ items := getLast?_mem_self hl
              have hle : s.after ≤ last.created_at := by
                simp only [oracleRespects, List.all_eq_true, decide_eq_true_eq] at h
                exact h last hmem
              simp [he, hl]
              linarith

/-- C1: for every stream instance — a `VaultStream` as constructed by `new`,
and any `TransactionStream` start state as produced by `from_source` or
`from_dest` (`init = false`, no in-flight future) — and every sequence of
polls, the number of in-flight fetch futures is at most 1 at every instant,
and a new fetch is pushed only when the future set is empty: on the very
first poll, or after the future set has been polled to completion and
drained. -/
theorem c1_at_most_one_inflight_fetch
    (vbuild : VaultBuild) (batch : Nat) (vos : List (FutOutcome VaultResult))
    (tbuild : TxBuild) (t0 : TransactionStream) (tos : List (FutOutcome TxResult))
    (h1 : t0.init = false) (h2 : t0.fut = 0) :
    ((∀ t ∈ VaultStream.states vbuild (VaultStream.new batch) vos, t.fut ≤ 1) ∧
      List.Chain' (fun a b => a.fut < b.fut → a.fut = 0)
        (VaultStream.states vbuild (VaultStream.new batch) vos)) ∧
    ((∀ t ∈ TransactionStream.states tbuild t0 tos, t.fut ≤ 1) ∧
      List.Chain' (fun a b => a.fut < b.fut → a.fut = 0)
        (TransactionStream.states tbuild t0 tos)) := by
  have hv : VaultStream.Inv (VaultStream.new batch) :=
    ⟨by simp [VaultStream.new], fun _ => by simp [VaultStream.new]⟩
  have ht : TransactionStream.Inv t0 := ⟨by omega, fun _ => h2⟩
  exact ⟨⟨fun t htm => (VaultStream.vault_inv_states vbuild _ vos hv t htm).1,
      VaultStream.vault_chain_fut vbuild _ vos hv⟩,
    ⟨fun t htm => (TransactionStream.tx_inv_states tbuild t0 tos ht t htm).1,
      TransactionStream.tx_chain_fut tbuild t0 tos ht⟩⟩

/-- Witness for C1 at concrete inputs. -/
theorem c1_at_most_one_inflight_fetch_witness :
    ((∀ t ∈ VaultStream.states okVaultBuild (VaultStream.new 2)
          [FutOutcome.pending], t.fut ≤ 1) ∧
      List.Chain' (fun a b => a.fut < b.fut → a.fut = 0)
        (VaultStream.states okVaultBuild (VaultStream.new 2)
          [FutOutcome.pending])) ∧
    ((∀ t ∈ TransactionStream.states TransactionStream.build_params
          (TransactionStream.from_source 1 7 0) [FutOutcome.pending], t.fut ≤ 1) ∧
      List.Chain' (fun a b => a.fut < b.fut → a.fut = 0)
        (TransactionStream.states TransactionStream.build_params
          (TransactionStream.from_source 1 7 0) [FutOutcome.pending])) :=
  c1_at_most_one_inflight_fetch okVaultBuild 2 [FutOutcome.pending]
    TransactionStream.build_params (TransactionStream.from_source 1 7 0)
    [FutOutcome.pending] rfl rfl

/-- C2: for every `VaultStream`, if the page returned by the in-flight fetch
carries an absent next token, the page is still yielded as a valid element,
the in-flight set is drained, and from then on every poll — under any
builder and any oracle — returns `Poll.Ready(None)` with the state unchanged
(so no further fetch is ever issued). -/
theorem c2_vault_absent_token_terminates
    (build : VaultBuild) (s : VaultStream) (va : VaultAccounts) (id : String)
    (h1 : s.init = true) (h2 : s.fut = 1) (h3 : va.paging.after = none) :
    (VaultStream.poll_next build s (.done (.ok (va, id)))).2
        = .ready (some (.ok (va, id))) ∧
    (VaultStream.poll_next build s (.done (.ok (va, id)))).1.fut = 0 ∧
    ∀ (build2 : VaultBuild) (os : List (FutOutcome VaultResult)),
      VaultStream.run build2
          (VaultStream.poll_next build s (.done (.ok (va, id)))).1 os
        = os.map (fun _ =>
            ((VaultStream.poll_next build s (.done (.ok (va, id)))).1,
              Poll.ready none)) := by
  have hstep : VaultStream.poll_next build s (.done (.ok (va, id)))
      = ({ s with fut := 0, after := va.paging.after },
          .ready (some (.ok (va, id)))) := by
    unfold VaultStream.poll_next
    simp [h1, h2]
  refine ⟨by rw [hstep], by rw [hstep], ?_⟩
  intro build2 os
  rw [hstep]
  exact VaultStream.run_exhausted build2 _ os (by simp [h1]) (by simp) (by simp [h3])

/-- Witness for C2 at concrete inputs. -/
theorem c2_vault_absent_token_terminates_witness :
    (VaultStream.poll_next okVaultBuild
        { batch := 1, after := some "T", init := true, fut := 1 }
        (.done (.ok (⟨⟨none⟩⟩, "id")))).2
      = .ready (some (.ok (⟨⟨none⟩⟩, "id"))) ∧
    (VaultStream.poll_next okVaultBuild
        { batch := 1, after := some "T", init := true, fut := 1 }
        (.done (.ok (⟨⟨none⟩⟩, "id")))).1.fut = 0 ∧
    ∀ (build2 : VaultBuild) (os : List (FutOutcome VaultResult)),
      VaultStream.run build2
          (VaultStream.poll_next okVaultBuild
            { batch := 1, after := some "T", init := true, fut := 1 }
            (.done (.ok (⟨⟨none⟩⟩, "id")))).1 os
        = os.map (fun _ =>
            ((VaultStream.poll_next okVaultBuild
              { batch := 1, after := some "T", init := true, fut := 1 }
              (.done (.ok (⟨⟨none⟩⟩, "id")))).1, Poll.ready none)) :=
  c2_vault_absent_token_terminates okVaultBuild
    { batch := 1, after := some "T", init := true, fut := 1 } ⟨⟨none⟩⟩ "id"
    rfl rfl rfl

/-- C3: for every `TransactionStream` whose in-flight fetch resolves with a
non-empty page with last item of creation timestamp `t`, the stored cursor
becomes `t` plus exactly one millisecond, and the next built request (under
the modelled `TransactionListBuilder`) carries that cursor as its "after"
parameter. -/
theorem c3_next_cursor_last_plus_one_ms
    (build : TxBuild) (s : TransactionStream) (va : List Transaction)
    (id : String) (last : Transaction)
    (h1 : s.init = true) (h2 : s.fut = 1) (h3 : va.getLast? = some last) :
    (TransactionStream.poll_next build s (.done (.ok (va, id)))).1.after
        = last.created_at + 1 ∧
    ∃ p, TransactionStream.build_params
          (TransactionStream.poll_next build s (.done (.ok (va, id)))).1 = .ok p
      ∧ p.after = last.created_at + 1 := by
  have hne : va.isEmpty = false := by
    cases va
    · simp at h3
    · simp
  have hstep : (TransactionStream.poll_next build s (.done (.ok (va, id)))).1
      = { s with fut := 0, after := last.created_at + 1 } := by
    unfold TransactionStream.poll_next
    simp [h1, h2, hne, h3]
  rw [hstep]
  exact ⟨rfl, ⟨_, rfl, rfl⟩⟩

/-- Witness for C3 at concrete inputs. -/
theorem c3_next_cursor_last_plus_one_ms_witness :
    (TransactionStream.poll_next TransactionStream.build_params
        { batch := 1, init := true, vault_id := 7, after := 0,
          is_source := true, fut := 1 }
        (.done (.ok ([⟨100⟩], "id")))).1.after = (⟨100⟩ : Transaction).created_at + 1 ∧
    ∃ p, TransactionStream.build_params
          (TransactionStream.poll_next TransactionStream.build_params
            { batch := 1, init := true, vault_id := 7, after := 0,
              is_source := true, fut := 1 }
            (.done (.ok ([⟨100⟩], "id")))).1 = .ok p
      ∧ p.after = (⟨100⟩ : Transaction).created_at + 1 :=
  c3_next_cursor_last_plus_one_ms TransactionStream.build_params
    { batch := 1, init := true, vault_id := 7, after := 0,
      is_source := true, fut := 1 } [⟨100⟩] "id" ⟨100⟩ rfl rfl rfl

/-- C4: for every `TransactionStream`, when the in-flight fetch resolves with
an empty page, the poll returns `Poll.Ready(None)` immediately — the empty
page is never yielded — the in-flight set is drained, and no other state
field changes (in particular no new fetch is pushed on that poll). -/
theorem c4_empty_page_immediate_termination
    (build : TxBuild) (s : TransactionStream) (id : String)
    (h1 : s.init = true) (h2 : s.fut = 1) :
    TransactionStream.poll_next build s (.done (.ok ([], id)))
      = ({ s with fut := 0 }, .ready none) := by
  unfold TransactionStream.poll_next
  simp [h1, h2]

/-- Witness for C4 at concrete inputs. -/
theorem c4_empty_page_immediate_termination_witness :
    TransactionStream.poll_next TransactionStream.build_params
        { batch := 1, init := true, vault_id := 7, after := 5,
          is_source := true, fut := 1 }
        (.done (.ok ([], "id")))
      = ({ batch := 1, init := true, vault_id := 7, after := 5,
            is_source := true, fut := 0 }, .ready none) :=
  c4_empty_page_immediate_termination TransactionStream.build_params
    { batch := 1, init := true, vault_id := 7, after := 5,
      is_source := true, fut := 1 } "id" rfl rfl

/-- C5 counterexample: a concrete `VaultStream` drain in which poll 4 yields
a transport-error element (with the token cursor still `some "A"`), and poll
5 nevertheless launches a new fetch (the in-flight count goes from 0 back to
1 and the poll returns `pending`), refuting both "no subsequent poll ever
launches a new fetch" and "no elements after the error". -/
theorem c5_error_terminal_counterexample :
    (VaultStream.run okVaultBuild (VaultStream.new 1)
        [.pending, .done (.ok (⟨⟨some "A"⟩⟩, "id")), .pending,
          .done (.error (.transport "boom")), .pending]).map Prod.snd
      = [.pending, .ready (some (.ok (⟨⟨some "A"⟩⟩, "id"))), .pending,
          .ready (some (.error (.transport "boom"))), .pending] ∧
    (VaultStream.run okVaultBuild (VaultStream.new 1)
        [.pending, .done (.ok (⟨⟨some "A"⟩⟩, "id")), .pending,
          .done (.error (.transport "boom")), .pending]).map
        (fun p => p.1.fut)
      = [1, 0, 1, 0, 1] := by
  decide

/-- C5 amended: yielding a transport-error element only drains the in-flight
set — no error state is recorded, the cursor is unchanged — and a subsequent
poll behaves exactly like any idle poll: a `VaultStream` whose token cursor
is present (and a `TransactionStream` unconditionally) builds parameters and,
when the build succeeds, launches a new fetch and returns `pending`.  The
yielded sequence can therefore contain further pages or errors after an
error element; an error is terminal only if the caller stops polling. -/
theorem c5_amended_error_not_terminal
    (vbuild : VaultBuild) (tbuild : TxBuild) :
    (∀ (s : VaultStream) (e : FireblocksError), s.init = true → s.fut = 1 →
      VaultStream.poll_next vbuild s (.done (.error e))
        = ({ s with fut := 0 }, .ready (some (.error e)))) ∧
    (∀ (t : TransactionStream) (e : FireblocksError), t.init = true → t.fut = 1 →
      TransactionStream.poll_next tbuild t (.done (.error e))
        = ({ t with fut := 0 }, .ready (some (.error e)))) ∧
    (∀ (u : VaultStream) (o : FutOutcome VaultResult) (p : VaultQueryParams),
      u.init = true → u.fut = 0 → u.after.isSome = true →
      vbuild u.batch (u.after.getD "") = .ok p →
      VaultStream.poll_next vbuild u o = ({ u with fut := 1 }, .pending)) ∧
    (∀ (u : TransactionStream) (o : FutOutcome TxResult)
        (p : TransactionQueryParams),
      u.init = true → u.fut = 0 → tbuild u = .ok p →
      TransactionStream.poll_next tbuild u o = ({ u with fut := 1 }, .pending)) := by
  refine ⟨?_, ?_, ?_, ?_⟩
  · intro s e h1 h2
    unfold VaultStream.poll_next
    simp [h1, h2]
  · intro t e h1 h2
    unfold TransactionStream.poll_next
    simp [h1, h2]
  · intro u o p h1 h2 h3 h4
    unfold VaultStream.poll_next
    have h5 : u.after.isNone = false := by
      cases hu : u.after <;> simp_all
    simp [h1, h2, h5, h4]
  · intro u o p h1 h2 h3
    unfold TransactionStream.poll_next
    simp [h1, h2, h3]

/-- Witness for the amended C5 at concrete inputs. -/
theorem c5_amended_error_not_terminal_witness :
    VaultStream.poll_next okVaultBuild
        { batch := 1, after := some "A", init := true, fut := 1 }
        (.done (.error (.transport "x")))
      = ({ batch := 1, after := some "A", init := true, fut := 0 },
          .ready (some (.error (.transport "x")))) ∧
    TransactionStream.poll_next TransactionStream.build_params
        { batch := 1, init := true, vault_id := 7, after := 5,
          is_source := true, fut := 1 }
        (.done (.error (.transport "x")))
      = ({ batch := 1, init := true, vault_id := 7, after := 5,
            is_source := true, fut := 0 },
          .ready (some (.error (.transport "x")))) ∧
    VaultStream.poll_next okVaultBuild
        { batch := 1, after := some "A", init := true, fut := 0 }
        FutOutcome.pending
      = ({ batch := 1, after := some "A", init := true, fut := 1 }, .pending) ∧
    TransactionStream.poll_next TransactionStream.build_params
        { batch := 1, init := true, vault_id := 7, after := 5,
          is_source := true, fut := 0 }
        FutOutcome.pending
      = ({ batch := 1, init := true, vault_id := 7, after := 5,
            is_source := true, fut := 1 }, .pending) := by
  have h := c5_amended_error_not_terminal okVaultBuild TransactionStream.build_params
  exact ⟨h.1 _ _ rfl rfl, h.2.1 _ _ rfl rfl,
    h.2.2.1 _ FutOutcome.pending { limit := 1, after := "A" } rfl rfl rfl rfl,
    h.2.2.2 _ FutOutcome.pending _ rfl rfl rfl⟩

/-- C6 counterexample: a concrete `TransactionStream` drain in which poll 2
signals termination (`Poll.Ready(None)` after an empty page) and poll 3 —
polling again after termination — does not return `Poll.Ready(None)`: it
builds parameters, launches a new fetch (in-flight count back to 1) and
returns `pending`, refuting the idempotent-termination claim. -/
theorem c6_poll_after_termination_counterexample :
    (TransactionStream.run TransactionStream.build_params
        (TransactionStream.from_source 1 7 0)
        [.pending, .done (.ok ([], "id")), .pending]).map Prod.snd
      = [.pending, .ready none, .pending] ∧
    (TransactionStream.run TransactionStream.build_params
        (TransactionStream.from_source 1 7 0)
        [.pending, .done (.ok ([], "id")), .pending]).map
        (fun p => p.1.fut)
      = [1, 0, 1] := by
  decide

/-- C6 amended: the idempotent-exhaustion contract holds for `VaultStream`
only.  A `VaultStream` with the token cursor absent and the future set
drained never leaves that state: every subsequent poll — under any builder
and any oracle — returns `Poll.Ready(None)` and issues no fetch.  A
`TransactionStream` polled after it has signalled termination instead builds
parameters with the unchanged cursor and, when the build succeeds, launches
a new fetch and returns `pending` (it only signals termination again once
that fetch resolves with an empty page). -/
theorem c6_amended_exhaustion_idempotent_vault_only
    (vbuild : VaultBuild) (tbuild : TxBuild) :
    (∀ (s : VaultStream) (os : List (FutOutcome VaultResult)),
      s.init = true → s.fut = 0 → s.after = none →
      VaultStream.run vbuild s os = os.map (fun _ => (s, Poll.ready none))) ∧
    (∀ (t : TransactionStream) (o : FutOutcome TxResult)
        (p : TransactionQueryParams),
      t.init = true → t.fut = 0 → tbuild t = .ok p →
      TransactionStream.poll_next tbuild t o = ({ t with fut := 1 }, .pending)) := by
  refine ⟨?_, ?_⟩
  · intro s os h1 h2 h3
    exact VaultStream.run_exhausted vbuild s os h1 h2 h3
  · intro t o p h1 h2 h3
    unfold TransactionStream.poll_next
    simp [h1, h2, h3]

/-- Witness for the amended C6 at concrete inputs. -/
theorem c6_amended_exhaustion_idempotent_vault_only_witness :
    VaultStream.run okVaultBuild
        { batch := 1, after := none, init := true, fut := 0 }
        [FutOutcome.pending, FutOutcome.pending]
      = ([FutOutcome.pending, FutOutcome.pending] :
          List (FutOutcome VaultResult)).map (fun _ =>
          (({ batch := 1, after := none, init := true, fut := 0 } : VaultStream),
            Poll.ready none)) ∧
    TransactionStream.poll_next TransactionStream.build_params
        { batch := 1, init := true, vault_id := 7, after := 5,
          is_source := true, fut := 0 }
        FutOutcome.pending
      = ({ batch := 1, init := true, vault_id := 7, after := 5,
            is_source := true, fut := 1 }, .pending) := by
  have h := c6_amended_exhaustion_idempotent_vault_only okVaultBuild
    TransactionStream.build_params
  exact ⟨h.1 _ [FutOutcome.pending, FutOutcome.pending] rfl rfl rfl,
    h.2 _ FutOutcome.pending _ rfl rfl rfl⟩

/-- C7 counterexample: a `TransactionStream` driven with a builder that
always fails yields a validation-error element on poll 1 and again on
poll 2 (and so on every poll), with zero fetches issued — refuting "the
sequence yields exactly one error element in total". -/
theorem c7_single_error_element_counterexample :
    (TransactionStream.run failTxBuild (TransactionStream.from_source 1 7 0)
        [.pending, .pending]).map Prod.snd
      = [.ready (some (.error (.param { msg := "bad" }))),
          .ready (some (.error (.param { msg := "bad" })))] ∧
    (TransactionStream.run failTxBuild (TransactionStream.from_source 1 7 0)
        [.pending, .pending]).map (fun p => p.1.fut)
      = [0, 0] := by
  decide

/-- C7 amended: whenever a poll attempts to build request parameters and the
build fails — on the very first poll, or on any later poll with the future
set drained (for `VaultStream`, with the token cursor still present) — that
poll yields the validation error as an element and pushes no fetch, leaving
the state otherwise unchanged.  The failure is not recorded: each such poll
yields one error element, so a persistently failing builder produces an
error element per poll rather than exactly one in total. -/
theorem c7_amended_build_failure_error_without_fetch
    (vbuild : VaultBuild) (tbuild : TxBuild) :
    (∀ (s : VaultStream) (o : FutOutcome VaultResult) (e : ParamError),
      s.init = false → vbuild s.batch (s.after.getD "") = .error e →
      VaultStream.poll_next vbuild s o
        = ({ s with init := true }, .ready (some (.error (.param e))))) ∧
    (∀ (s : VaultStream) (o : FutOutcome VaultResult) (e : ParamError),
      s.init = true → s.fut = 0 → s.after.isSome = true →
      vbuild s.batch (s.after.getD "") = .error e →
      VaultStream.poll_next vbuild s o = (s, .ready (some (.error (.param e))))) ∧
    (∀ (t : TransactionStream) (o : FutOutcome TxResult) (e : ParamError),
      t.init = false → tbuild { t with init := true } = .error e →
      TransactionStream.poll_next tbuild t o
        = ({ t with init := true }, .ready (some (.error (.param e))))) ∧
    (∀ (t : TransactionStream) (o : FutOutcome TxResult) (e : ParamError),
      t.init = true → t.fut = 0 → tbuild t = .error e →
      TransactionStream.poll_next tbuild t o
        = (t, .ready (some (.error (.param e))))) := by
  refine ⟨?_, ?_, ?_, ?_⟩
  · intro s o e h1 h2
    unfold VaultStream.poll_next
    simp [h1, h2]
  · intro s o e h1 h2 h3 h4
    unfold VaultStream.poll_next
    have h5 : s.after.isNone = false := by
      cases hu : s.after <;> simp_all
    simp [h1, h2, h5, h4]
  · intro t o e h1 h2
    unfold TransactionStream.poll_next
    simp [h1, h2]
  · intro t o e h1 h2 h3
    unfold TransactionStream.poll_next
    simp [h1, h2, h3]

/-- Witness for the amended C7 at concrete inputs. -/
theorem c7_amended_build_failure_error_without_fetch_witness :
    VaultStream.poll_next (fun _ _ => .error { msg := "bad" })
        (VaultStream.new 1) FutOutcome.pending
      = ({ batch := 1, after := none, init := true, fut := 0 },
          .ready (some (.error (.param { msg := "bad" })))) ∧
    VaultStream.poll_next (fun _ _ => .error { msg := "bad" })
        { batch := 1, after := some "A", init := true, fut := 0 }
        FutOutcome.pending
      = ({ batch := 1, after := some "A", init := true, fut := 0 },
          .ready (some (.error (.param { msg := "bad" })))) ∧
    TransactionStream.poll_next failTxBuild
        (TransactionStream.from_source 1 7 0) FutOutcome.pending
      = ({ batch := 1, init := true, vault_id := 7, after := 0,
            is_source := true, fut := 0 },
          .ready (some (.error (.param { msg := "bad" })))) ∧
    TransactionStream.poll_next failTxBuild
        { batch := 1, init := true, vault_id := 7, after := 0,
          is_source := true, fut := 0 }
        FutOutcome.pending
      = ({ batch := 1, init := true, vault_id := 7, after := 0,
            is_source := true, fut := 0 },
          .ready (some (.error (.param { msg := "bad" })))) := by
  have h := c7_amended_build_failure_error_without_fetch
    (fun _ _ => .error { msg := "bad" }) failTxBuild
  exact ⟨h.1 (VaultStream.new 1) FutOutcome.pending _ rfl rfl,
    h.2.1 _ FutOutcome.pending _ rfl rfl rfl rfl,
    h.2.2.1 (TransactionStream.from_source 1 7 0) FutOutcome.pending _ rfl rfl,
    h.2.2.2 _ FutOutcome.pending _ rfl rfl rfl⟩

/-- C8: for every `TransactionStream`, under the precondition that every
item of each page delivered by the oracle has a creation timestamp at or
after the cursor current when it is delivered, the stored cursor is
monotonically non-decreasing along the whole run (in particular across
successive non-empty pages). -/
theorem c8_timestamp_cursor_monotone
    (build : TxBuild) (s : TransactionStream) (os : List (FutOutcome TxResult))
    (h : TxRunRespects build s os = true) :
    List.Chain' (fun a b => a.after ≤ b.after)
      (TransactionStream.states build s os) := by
  induction os generalizing s with
  | nil => simp [TransactionStream.states, TransactionStream.run]
  | cons o os ih =>
    rw [TransactionStream.tx_states_cons, List.chain'_cons']
    simp only [TxRunRespects, Bool.and_eq_true] at h
    refine ⟨?_, ih _ h.2⟩
    intro b hb
    have hb2 : b = (TransactionStream.poll_next build s o).1 := by
      simp [TransactionStream.states] at hb
      exact hb.symm
    rw [hb2]
    exact TransactionStream.after_mono_step build s o h.1

/-- Witness for C8 at concrete inputs. -/
theorem c8_timestamp_cursor_monotone_witness :
    List.Chain' (fun a b => a.after ≤ b.after)
      (TransactionStream.states TransactionStream.build_params
        (TransactionStream.from_source 1 7 0)
        [.pending, .done (.ok ([⟨5⟩], "id"))]) :=
  c8_timestamp_cursor_monotone TransactionStream.build_params
    (TransactionStream.from_source 1 7 0)
    [.pending, .done (.ok ([⟨5⟩], "id"))] (by decide)

/-- C9: `transactions_from_source` and `transactions_from_destination` with
an absent cursor both use the fixed default instant 2022-04-06 00:01:01 UTC
(= 1649203261000 ms since the Unix epoch) as the initial cursor; a supplied
cursor is used verbatim; and the two constructed streams differ only in the
party-role flag, which selects `source_id` versus `destination_id` in the
built request parameters. -/
theorem c9_constructors_default_cursor (vault_id : Int) (batch : Nat) (a : Epoch) :
    PagedClient.transactions_from_source vault_id batch none
      = TransactionStream.from_source batch vault_id
          (with_ymd_and_hms_millis 2022 4 6 0 1 1) ∧
    PagedClient.transactions_from_destination vault_id batch none
      = TransactionStream.from_dest batch vault_id
          (with_ymd_and_hms_millis 2022 4 6 0 1 1) ∧
    with_ymd_and_hms_millis 2022 4 6 0 1 1 = 1649203261000 ∧
    PagedClient.transactions_from_source vault_id batch (some a)
      = TransactionStream.from_source batch vault_id a ∧
    PagedClient.transactions_from_destination vault_id batch (some a)
      = TransactionStream.from_dest batch vault_id a ∧
    { PagedClient.transactions_from_source vault_id batch (some a) with
        is_source := false }
      = PagedClient.transactions_from_destination vault_id batch (some a) ∧
    TransactionStream.build_params
        (PagedClient.transactions_from_source vault_id batch (some a))
      = .ok { limit := batch, after := a, sort_ascending := true,
              order_by_created_at := true, source_id := some vault_id,
              destination_id := none } ∧
    TransactionStream.build_params
        (PagedClient.transactions_from_destination vault_id batch (some a))
      = .ok { limit := batch, after := a, sort_ascending := true,
              order_by_created_at := true, source_id := none,
              destination_id := some vault_id } :=
  ⟨rfl, rfl, by decide, rfl, rfl, rfl, rfl, rfl⟩

/-- C10: every request built by a `TransactionStream` (source- or
destination-filtered) asks for ascending ordering by creation timestamp
under the modelled `TransactionListBuilder`; and for any page sorted in
ascending creation-timestamp order, the last item carries the greatest
creation timestamp — the property the cursor-advancement rule relies on. -/
theorem c10_requests_ascending_by_created_at
    (s : TransactionStream) (va : List Transaction) (last : Transaction)
    (h1 : List.Chain' (fun a b => a.created_at ≤ b.created_at) va)
    (h2 : va.getLast? = some last) :
    (∃ p, TransactionStream.build_params s = .ok p ∧
        p.sort_ascending = true ∧ p.order_by_created_at = true) ∧
    ∀ tx ∈ va, tx.created_at ≤ last.created_at :=
  ⟨⟨_, rfl, rfl, rfl⟩, chain_created_le_getLast h1 h2⟩

/-- Witness for C10 at concrete inputs. -/
theorem c10_requests_ascending_by_created_at_witness :
    (∃ p, TransactionStream.build_params (TransactionStream.from_dest 1 7 0)
          = .ok p ∧ p.sort_ascending = true ∧ p.order_by_created_at = true) ∧
    ∀ tx ∈ ([⟨1⟩, ⟨2⟩] : List Transaction),
      tx.created_at ≤ (⟨2⟩ : Transaction).created_at :=
  c10_requests_ascending_by_created_at (TransactionStream.from_dest 1 7 0)
    [⟨1⟩, ⟨2⟩] ⟨2⟩ (by norm_num [List.chain'_cons]) (by decide)

end Fireblocks
